import Mathlib

/-!
# Verification of the taguchi-ui analysis & validation engine

A shallow embedding of the Rust analysis/validation engine in
`src-tauri/src/commands/{analysis,doe_analysis,builder,export}.rs`.
Machine integers (`u32`, `usize`) are modelled as `Nat` (all values involved are
non-negative counters and never approach overflow in the functions embedded);
`f64` values are modelled as `ℚ`, with the `f64::sqrt` primitive and
`f64::EPSILON` constant kept as explicit parameters, so that every guard of the
source appears verbatim in the model. External library calls
(`taguchi::*`, `ndarray::Array2::from_shape_vec`, `OAParams::new_mixed`,
`OA::try_new`, `chrono`) are black boxes per the system specification; they are
modelled as parameters or assumed to succeed where no claim depends on them.
-/

namespace TaguchiUI

/-! ## List helpers shared by several embedded functions -/

/-- Column `c` of a row-major matrix (`data.iter().map(|row| row[col])`).
Rows shorter than `c` default to `0`; embedded call sites only use in-range
columns of rectangular matrices. -/
def column (data : List (List Nat)) (c : Nat) : List Nat :=
  data.map (fun row => row.getD c 0)

/-- Model of `iter().max().unwrap_or(d)`: maximum of the list, `d` when empty. -/
def listMaxD (l : List Nat) (d : Nat) : Nat :=
  match l with
  | [] => d
  | x :: xs => xs.foldl Nat.max x

/-- Sum `f 0 + f 1 + ... + f (n-1)`, the model of a Rust accumulation loop
`for r in 0..n`. -/
def sumOver (n : Nat) (f : Nat → ℚ) : ℚ :=
  ((List.range n).map f).sum

/-- Substring search on character lists, the model of Rust `str::contains`. -/
def containsSub (pat : List Char) : List Char → Bool
  | [] => pat.isEmpty
  | c :: rest => pat.isPrefixOf (c :: rest) || containsSub pat rest

/-- Rust `usize::is_power_of_two`: true iff `n = 2^k` for some `k`
(so false at `0`). -/
def isPowerOfTwo (n : Nat) : Bool :=
  (List.range (n + 1)).any (fun k => n == 2 ^ k)

/-! ## Data model (`types.rs`) -/

/-- Model of the validated array produced by `data_to_oa`: the library `OA`
object as observed through `runs()`, `factors()`, `levels_for()` and
`get(row, col)`. -/
structure OAmodel where
  runs : Nat
  factors : Nat
  levels : List Nat
  data : List (List Nat)
deriving DecidableEq

/-- Model of `oa.get(row, col)`. -/
def OAmodel.get (oa : OAmodel) (r c : Nat) : Nat :=
  (oa.data.getD r []).getD c 0

/-- Model of `BalanceData` (`types.rs`); the `HashMap<u32, usize>` of level counts is
modelled as the list of `(level value, occurrence count)` pairs over the
distinct values of the column. -/
structure BalanceData where
  factor_balance : List Bool
  level_counts : List (List (Nat × Nat))
  expected_count : Nat
deriving DecidableEq

/-- Model of `CorrelationData` (`types.rs`), with `f64` as `ℚ`. -/
structure CorrelationData where
  matrix : List (List ℚ)
  factors : Nat
deriving DecidableEq

/-- Model of `VerificationIssue` (`types.rs`); `location` is always `None` in the code
paths embedded here, so the `IssueLocation` payload is left abstract as
`Option Unit`. -/
structure VerificationIssue where
  issue_type : String
  description : String
  location : Option Unit
deriving DecidableEq

/-- Model of `VerificationData` (`types.rs`). -/
structure VerificationData where
  is_valid : Bool
  claimed_strength : Nat
  actual_strength : Nat
  issues : List VerificationIssue
deriving DecidableEq

/-- Model of `ImportValidation` (`types.rs`). -/
structure ImportValidation where
  runs : Nat
  factors : Nat
  levels : List Nat
  is_mixed : Bool
  estimated_strength : Nat
  warnings : List String
deriving DecidableEq

/-- Model of `ConstructionOption` (`types.rs`). -/
structure ConstructionOption where
  name : String
  runs : Nat
  max_factors : Nat
  description : String
  constraints : List String
deriving DecidableEq

/-- Model of `ValidationResult` (`types.rs`). -/
structure ValidationResult where
  valid : Bool
  errors : List String
  warnings : List String
  suggestions : List ConstructionOption
deriving DecidableEq

/-- Model of `LevelSpec` (`types.rs`). -/
inductive LevelSpec where
  | symmetric (s : Nat)
  | mixed (lvls : List Nat)
deriving DecidableEq

/-- Model of `BuildRequest` (`types.rs`). -/
structure BuildRequest where
  levels : LevelSpec
  factors : Nat
  strength : Nat
  min_runs : Option Nat
deriving DecidableEq

/-! ## `analysis.rs`: ingestion (`data_to_oa`) -/

/-- Per-column level inference of `data_to_oa` (and, identically coded, of
`validate_import`): `levels[col] = data.iter().map(|row| row[col]).max().unwrap_or(0) + 1`. -/
def inferLevels (data : List (List Nat)) (factors : Nat) : List Nat :=
  (List.range factors).map (fun c => listMaxD (column data c) 0 + 1)

/-- Model of `data_to_oa` (`analysis.rs`). The trailing external steps
(`ndarray::Array2::from_shape_vec`, which cannot fail on the exact-length flat
vector built here, and `OAParams::new_mixed`/`OA::new`, external black boxes)
are modelled as succeeding; the shape checks are the in-repo logic. -/
def dataToOA (data : List (List Nat)) : Except String OAmodel :=
  if data.isEmpty then .error "Array data cannot be empty"
  else
    let factors := (data.headD []).length
    if factors = 0 then .error "Array must have at least one factor"
    else if !(data.all (fun row => row.length == factors)) then
      .error "All rows must have the same number of columns"
    else
      .ok ⟨data.length, factors, inferLevels data factors, data⟩

/-! ## `analysis.rs`: balance report -/

/-- The per-factor tally loop of `get_balance_report`: occurrence count of each
distinct value of column `c` (the contents of the `HashMap`). -/
def levelCountsFor (oa : OAmodel) (c : Nat) : List (Nat × Nat) :=
  let col := column oa.data c
  col.dedup.map (fun v => (v, col.count v))

/-- The per-factor balance check of `get_balance_report`:
`expected = oa.runs() / oa.levels_for(col)` and
`counts.values().all(|&c| c == expected)`. -/
def balanceForCol (oa : OAmodel) (c : Nat) : Bool :=
  let col := column oa.data c
  let expected := oa.runs / oa.levels.getD c 0
  col.dedup.all (fun v => col.count v == expected)

/-- Model of `get_balance_report` (`analysis.rs`). -/
def get_balance_report (data : List (List Nat)) : Except String BalanceData :=
  match dataToOA data with
  | .error e => .error e
  | .ok oa =>
      .ok { factor_balance := (List.range oa.factors).map (balanceForCol oa)
            level_counts := (List.range oa.factors).map (levelCountsFor oa)
            expected_count :=
              if oa.factors > 0 then oa.runs / oa.levels.getD 0 0 else 0 }

/-! ## `analysis.rs`: correlation matrix -/

/-- Mean of column `i` (`calculate_correlation`, mean accumulation loop). -/
def colMean (oa : OAmodel) (i : Nat) : ℚ :=
  sumOver oa.runs (fun r => (oa.get r i : ℚ)) / (oa.runs : ℚ)

/-- Variance accumulator `var_i` of `calculate_correlation` (sum of squared
deviations, not divided by `n`). -/
def colVar (oa : OAmodel) (i : Nat) : ℚ :=
  sumOver oa.runs
    (fun r => ((oa.get r i : ℚ) - colMean oa i) * ((oa.get r i : ℚ) - colMean oa i))

/-- Covariance accumulator `cov` of `calculate_correlation`. -/
def colCov (oa : OAmodel) (i j : Nat) : ℚ :=
  sumOver oa.runs
    (fun r => ((oa.get r i : ℚ) - colMean oa i) * ((oa.get r j : ℚ) - colMean oa j))

/-- Model of `calculate_correlation` (`analysis.rs`), parametric in the `f64::sqrt`
primitive and the `f64::EPSILON` constant so the guard
`if denom < f64::EPSILON { 0.0 } else { cov / denom }` appears verbatim. -/
def calculate_correlation (sqrt : ℚ → ℚ) (eps : ℚ) (oa : OAmodel) (i j : Nat) : ℚ :=
  let denom := sqrt (colVar oa i * colVar oa j)
  if denom < eps then 0 else colCov oa i j / denom

/-- Model of `get_correlation_matrix` (`analysis.rs`): diagonal entries are assigned the
literal `1.0`; off-diagonal entries call `calculate_correlation`. -/
def get_correlation_matrix (sqrt : ℚ → ℚ) (eps : ℚ) (data : List (List Nat)) :
    Except String CorrelationData :=
  match dataToOA data with
  | .error e => .error e
  | .ok oa =>
      .ok { matrix :=
              (List.range oa.factors).map (fun i =>
                (List.range oa.factors).map (fun j =>
                  if i = j then 1 else calculate_correlation sqrt eps oa i j))
            factors := oa.factors }

/-! ## `analysis.rs`: verification issue classification -/

/-- The issue-classification closure of `verify_array`: given the `Debug`
rendering of one opaque external issue, classify by substring search for
`"ValueOutOfRange"` and keep the rendering verbatim as the description. -/
def classify_issue (debug_str : String) : VerificationIssue :=
  if containsSub "ValueOutOfRange".toList debug_str.toList then
    { issue_type := "Value Out of Range", description := debug_str, location := none }
  else
    { issue_type := "Balance Violation", description := debug_str, location := none }

/-- The result of the external `taguchi::verify_strength`, as observed by
`verify_array`: the issues are opaque objects used only through their `Debug`
rendering, so they are modelled by those rendered strings. -/
structure VerifyResultModel where
  is_valid : Bool
  actual_strength : Nat
  issues : List String
deriving DecidableEq

/-- Model of `verify_array` (`analysis.rs`) after the external verifier returned
`result`: the in-repo logic mapping each issue through the classifier. -/
def verify_array (result : VerifyResultModel) (claimed_strength : Nat) : VerificationData :=
  { is_valid := result.is_valid
    claimed_strength := claimed_strength
    actual_strength := result.actual_strength
    issues := result.issues.map classify_issue }

/-! ## `doe_analysis.rs` -/

/-- Model of `OptimizationType` (`types.rs`). -/
inductive OptimizationType where
  | largerIsBetter
  | smallerIsBetter
  | nominalIsBest
deriving DecidableEq

/-- Model of `DOEAnalysisRequest` (`types.rs`), with `f64` as `ℚ`. -/
structure DOERequest where
  array_data : List (List Nat)
  response_data : List (List ℚ)
  factor_ids : List String
  factor_names : List String
  optimization_type : OptimizationType
  target_value : Option ℚ
  pooling_threshold : Option ℚ
  enable_pooling : Option Bool
  min_unpooled_factors : Option Nat
  confidence_level : Option ℚ

/-- The library `AnalysisConfig` as assembled by `run_doe_analysis`. -/
structure AnalysisConfigModel where
  optimization_type : OptimizationType
  target_value : Option ℚ
  pooling_threshold : ℚ
  enable_pooling : Bool
  min_unpooled_factors : Nat
  confidence_level : ℚ

/-- The per-column level derivation of `run_doe_analysis`: collect the column,
sort it, remove (consecutive, hence after sorting all) duplicates, count. -/
def doeLevelCount (col : List Nat) : Nat :=
  ((col.mergeSort (· ≤ ·)).dedup).length

/-- Model of `convert_to_array2` (`doe_analysis.rs`): the in-repo shape check; the
trailing `Array2::from_shape_vec` on the exact-length flat vector is modelled
as succeeding. Returns the flattened data. -/
def convert_to_array2 (data : List (List Nat)) : Except String (List Nat) :=
  if data.isEmpty then .error "Empty data"
  else
    let cols := (data.headD []).length
    match (data.enum.filterMap (fun p =>
        if p.2.length = cols then none
        else
          let i := p.1
          let n := p.2.length
          some s!"Row {i} has {n} columns, expected {cols}")).head? with
    | some e => .error e
    | none => .ok (data.flatMap id)

/-- Model of `run_doe_analysis` (`doe_analysis.rs`). The external tail —
`OAParams::new_mixed`, `OA::try_new`, `doe::analyze`, and the re-keying of the
engine's result by factor ids/names plus the timestamp — is abstracted as the
parameter `engine`, applied to the derived per-factor level counts, the array,
the responses, and the assembled configuration. The in-repo precondition
checks, level derivation, conversion, and config assembly are embedded. -/
def run_doe_analysis {α : Type} (engine : List Nat → List (List Nat) → List (List ℚ) →
    AnalysisConfigModel → Except String α) (r : DOERequest) : Except String α :=
  if r.array_data.isEmpty then .error "Array data is empty"
  else if r.response_data.isEmpty then .error "Response data is empty"
  else if r.array_data.length ≠ r.response_data.length then
    .error "Array data and response data must have same number of runs"
  else
    let num_factors := (r.array_data.headD []).length
    if r.factor_ids.length ≠ num_factors then
      .error "Number of factor IDs must match number of columns"
    else if r.factor_names.length ≠ num_factors then
      .error "Number of factor names must match number of columns"
    else
      let levels_per_factor :=
        (List.range num_factors).map (fun c => doeLevelCount (column r.array_data c))
      match convert_to_array2 r.array_data with
      | .error e => .error s!"Failed to convert array data: {e}"
      | .ok _ =>
          let config : AnalysisConfigModel :=
            { optimization_type := r.optimization_type
              target_value := r.target_value
              pooling_threshold := r.pooling_threshold.getD 2
              enable_pooling := r.enable_pooling.getD true
              min_unpooled_factors := r.min_unpooled_factors.getD 1
              confidence_level := r.confidence_level.getD (95 / 100) }
          engine levels_per_factor r.array_data r.response_data config

/-! ## `builder.rs` -/

/-- Model of `get_construction_description` (`builder.rs`). -/
def get_construction_description (name : String) : String :=
  match name with
  | "Bose" => "Primary construction for strength 2 arrays"
  | "Bush" => "Higher strength arrays (t >= 2)"
  | "Bose-Bush" => "Extended Bose for binary (2 level) arrays"
  | "Hadamard-Sylvester" => "Binary arrays from Hadamard matrices"
  | "Hadamard-Paley" => "Binary arrays using Paley construction"
  | "Addelman-Kempthorne" => "Extended construction for odd prime powers"
  | "Rao-Hamming" => "Arrays from linear codes"
  | _ => "Construction method"

/-- Model of `get_construction_constraints` (`builder.rs`). -/
def get_construction_constraints (name : String) (levels : Nat) : List String :=
  match name with
  | "Bose" =>
      [s!"Requires {levels} to be a prime power",
       let m := levels + 1
       s!"Max {m} factors"]
  | "Bush" => [s!"Requires {levels} to be a prime power"]
  | "Bose-Bush" => ["Only for 2 levels"]
  | "Hadamard-Sylvester" => ["Only for 2 levels", "Runs must be power of 2"]
  | "Hadamard-Paley" =>
      ["Only for 2 levels", "Requires (runs-1) to be prime â‰¡ 3 (mod 4)"]
  | "Addelman-Kempthorne" => ["Requires odd prime power levels"]
  | _ => []

/-- Model of `detect_algorithm` (`builder.rs`): the structural fingerprint heuristic over
`(runs, factors, levels)`, parametric in the external `taguchi::is_prime`. -/
def detect_algorithm (isPrime : Nat → Bool) (runs factors levels : Nat) : String :=
  if levels = 2 ∧ isPowerOfTwo runs then "Hadamard-Sylvester"
  else if levels = 2 ∧ 1 < runs ∧ isPrime (runs - 1) then "Hadamard-Paley"
  else if runs = levels ^ 2 ∧ factors ≤ levels + 1 then "Bose"
  else if runs = 2 * levels ^ 2 ∧ factors ≤ 2 * levels + 1 then
    if levels = 2 then "Bose-Bush" else "Addelman-Kempthorne"
  else "Unknown"

/-- Turn an external catalogue triple into a `ConstructionOption`
(the closure shared by `get_available_constructions` and
`validate_build_params`). -/
def mkConstructionOption (levels : Nat) (t : String × Nat × Nat) : ConstructionOption :=
  { name := t.1
    runs := t.2.1
    max_factors := t.2.2
    description := get_construction_description t.1
    constraints := get_construction_constraints t.1 levels }

/-- The accumulation body of `validate_build_params` after the level value has
been extracted (`levels` below). `isPrimePower` models the external
`taguchi::is_prime_power`; `catalogue` models the external
`taguchi::available_constructions`. -/
def validate_build_body (isPrimePower : Nat → Bool)
    (catalogue : Nat → Nat → List (String × Nat × Nat))
    (levels : Nat) (req : BuildRequest) : ValidationResult :=
  let errors0 : List String := []
  let errors1 := if levels < 2 then errors0 ++ ["Levels must be at least 2"] else errors0
  let errors2 := if req.factors < 1 then errors1 ++ ["Factors must be at least 1"] else errors1
  let errors3 :=
    if req.strength > req.factors then
      let s := req.strength
      let f := req.factors
      errors2 ++ [s!"Strength {s} cannot exceed factors {f}"]
    else errors2
  let warnings : List String :=
    if isPrimePower levels then []
    else [s!"Levels {levels} is not a prime power - limited constructions available"]
  let suggestions :=
    if errors3.isEmpty then
      ((catalogue levels req.strength).filter
        (fun t => req.factors ≤ t.2.2)).map (mkConstructionOption levels)
    else []
  let errors4 :=
    if suggestions.isEmpty ∧ errors3.isEmpty then
      let f := req.factors
      let s := req.strength
      errors3 ++ [s!"No construction available for {levels} levels, {f} factors, strength {s}"]
    else errors3
  { valid := errors4.isEmpty
    errors := errors4
    warnings := warnings
    suggestions := suggestions }

/-- Model of `validate_build_params` (`builder.rs`). -/
def validate_build_params (isPrimePower : Nat → Bool)
    (catalogue : Nat → Nat → List (String × Nat × Nat))
    (req : BuildRequest) : ValidationResult :=
  match req.levels with
  | .symmetric s => validate_build_body isPrimePower catalogue s req
  | .mixed lvls =>
      if lvls.isEmpty then
        { valid := false
          errors := ["At least one level must be specified"]
          warnings := []
          suggestions := [] }
      else validate_build_body isPrimePower catalogue (listMaxD lvls 0) req

/-! ## `export.rs`: import validation -/

/-- Model of `estimate_strength` (`export.rs`). -/
def estimate_strength (data : List (List Nat)) (levels : List Nat) : Nat :=
  let runs := data.length
  let max_level := listMaxD levels 2
  if runs ≥ max_level ^ 3 then 3
  else if runs ≥ max_level ^ 2 then 2
  else 1

/-- Model of `generate_warnings` (`export.rs`). -/
def generate_warnings (data : List (List Nat)) (levels : List Nat) : List String :=
  let balance_warnings := levels.enum.filterMap (fun p =>
    let col := column data p.1
    let expected := data.length / p.2
    if col.dedup.all (fun v => col.count v == expected) then none
    else
      let c := p.1 + 1
      some s!"Factor {c} may not be balanced")
  let w1 := if data.length < 4 then ["Array has very few runs"] else []
  let w2 := if (data.headD []).length > 50 then
      ["Array has many factors - analysis may be slow"] else []
  balance_warnings ++ w1 ++ w2

/-- The ragged-row scan of `validate_import`, reporting the first row whose
length differs from the first row's (1-based index in the message). -/
def findRagged (factors : Nat) : Nat → List (List Nat) → Option String
  | _, [] => none
  | i, row :: rest =>
      if row.length = factors then findRagged factors (i + 1) rest
      else
        let r := i + 1
        let n := row.length
        some s!"Row {r} has {n} columns, expected {factors}"

/-- Model of `validate_import` (`export.rs`). The `HashSet` cardinality used for
`is_mixed` is the number of distinct per-factor level counts. -/
def validate_import (data : List (List Nat)) : Except String ImportValidation :=
  if data.isEmpty then .error "Array data is empty"
  else
    let factors := (data.headD []).length
    match findRagged factors 0 data with
    | some e => .error e
    | none =>
        let levels := inferLevels data factors
        .ok { runs := data.length
              factors := factors
              levels := levels
              is_mixed := levels.dedup.length > 1
              estimated_strength := estimate_strength data levels
              warnings := generate_warnings data levels }

/-! ## Helper lemmas -/

/-- Reading index `c` of a table built by mapping over `List.range n`. -/
theorem getD_range_map {α : Type} (f : Nat → α) (n c : Nat) (d : α) (h : c < n) :
    ((List.range n).map f).getD c d = f c := by
  rw [List.getD_eq_getElem?_getD]
  simp [List.getElem?_map, List.getElem?_range, h]

/-- The seed of a `foldl max` is a lower bound of the result. -/
theorem foldl_max_init_le (ys : List Nat) : ∀ y : Nat, y ≤ ys.foldl Nat.max y := by
  induction ys with
  | nil => intro y; exact Nat.le_refl y
  | cons z ys ih => intro y; exact Nat.le_trans (Nat.le_max_left y z) (ih (Nat.max y z))

/-- Every element folded by `foldl max` is bounded by the result. -/
theorem foldl_max_mem_le (ys : List Nat) : ∀ y x : Nat, x ∈ ys → x ≤ ys.foldl Nat.max y := by
  induction ys with
  | nil => intro _ x hx; cases hx
  | cons z ys ih =>
      intro y x hx
      rcases List.mem_cons.mp hx with rfl | hx
      · exact Nat.le_trans (Nat.le_max_right y x) (foldl_max_init_le ys (Nat.max y x))
      · exact ih (Nat.max y z) x hx

/-- Every member of a list is bounded by `listMaxD`. -/
theorem mem_le_listMaxD {l : List Nat} {x : Nat} (d : Nat) (hx : x ∈ l) :
    x ≤ listMaxD l d := by
  cases l with
  | nil => cases hx
  | cons y ys =>
      rcases List.mem_cons.mp hx with rfl | hx
      · exact foldl_max_init_le ys x
      · exact foldl_max_mem_le ys y x hx

/-- Sorting before removing duplicates does not change how many distinct
values remain. -/
theorem doeLevelCount_eq_dedup_length (l : List Nat) :
    doeLevelCount l = l.dedup.length :=
  ((List.mergeSort_perm l (· ≤ ·)).dedup).length_eq

/-- A successful `dataToOA` returns exactly the input matrix together with the
derived dimensions and inferred levels, and certifies the shape checks. -/
theorem dataToOA_ok_elim {data : List (List Nat)} {oa : OAmodel}
    (h : dataToOA data = .ok oa) :
    oa.runs = data.length ∧ oa.factors = (data.headD []).length ∧
    oa.levels = inferLevels data ((data.headD []).length) ∧ oa.data = data ∧
    data ≠ [] ∧ (data.headD []).length ≠ 0 := by
  simp only [dataToOA] at h
  split_ifs at h with h1 h2 h3
  injection h with h4
  subst h4
  refine ⟨rfl, rfl, rfl, rfl, ?_, h2⟩
  simpa [List.isEmpty_iff] using h1

/-- The classification closure at a rendering containing the marker. -/
theorem classify_issue_pos {s : String}
    (hc : containsSub "ValueOutOfRange".toList s.toList = true) :
    classify_issue s = ⟨"Value Out of Range", s, none⟩ := by
  unfold classify_issue
  rw [if_pos hc]

/-- The classification closure at a rendering without the marker. -/
theorem classify_issue_neg {s : String}
    (hc : containsSub "ValueOutOfRange".toList s.toList = false) :
    classify_issue s = ⟨"Balance Violation", s, none⟩ := by
  unfold classify_issue
  rw [if_neg]
  simpa using hc

/-- Rust's `usize::is_power_of_two` holds at every power of two. -/
theorem isPowerOfTwo_two_pow (k : Nat) : isPowerOfTwo (2 ^ k) = true := by
  unfold isPowerOfTwo
  rw [List.any_eq_true]
  exact ⟨k, List.mem_range.mpr (Nat.lt_succ_of_lt (Nat.lt_two_pow k)), by simp⟩

/-! ## Claim theorems -/

/-- C3: `run_doe_analysis` checks its preconditions in order — array data
non-empty, response data non-empty, equal row counts, factor-ID count equal to
the column count, factor-name count equal to the column count — and on any
violation returns the corresponding distinctly-worded fatal error (hence no
analysis result is produced). -/
theorem run_doe_analysis_preconditions {α : Type}
    (engine : List Nat → List (List Nat) → List (List ℚ) → AnalysisConfigModel →
      Except String α) (r : DOERequest) :
    (r.array_data = [] → run_doe_analysis engine r = .error "Array data is empty") ∧
    (r.array_data ≠ [] → r.response_data = [] →
      run_doe_analysis engine r = .error "Response data is empty") ∧
    (r.array_data ≠ [] → r.response_data ≠ [] →
      r.array_data.length ≠ r.response_data.length →
      run_doe_analysis engine r =
        .error "Array data and response data must have same number of runs") ∧
    (r.array_data ≠ [] → r.response_data ≠ [] →
      r.array_data.length = r.response_data.length →
      r.factor_ids.length ≠ (r.array_data.headD []).length →
      run_doe_analysis engine r =
        .error "Number of factor IDs must match number of columns") ∧
    (r.array_data ≠ [] → r.response_data ≠ [] →
      r.array_data.length = r.response_data.length →
      r.factor_ids.length = (r.array_data.headD []).length →
      r.factor_names.length ≠ (r.array_data.headD []).length →
      run_doe_analysis engine r =
        .error "Number of factor names must match number of columns") ∧
    (["Array data is empty", "Response data is empty",
      "Array data and response data must have same number of runs",
      "Number of factor IDs must match number of columns",
      "Number of factor names must match number of columns"].Pairwise (· ≠ ·)) := by
  refine ⟨?_, ?_, ?_, ?_, ?_, by decide⟩ <;>
    (intros; simp_all [run_doe_analysis, List.isEmpty_iff])

/-- C3 witness: a concrete request with mismatched array/response row counts is
rejected with the row-count error, and the earlier precondition violations
produce their own errors. -/
theorem run_doe_analysis_preconditions_witness :
    run_doe_analysis (α := Nat) (fun _ _ _ _ => .ok 0)
      { array_data := [[0]], response_data := [[0], [0]], factor_ids := ["a"],
        factor_names := ["A"], optimization_type := .largerIsBetter,
        target_value := none, pooling_threshold := none, enable_pooling := none,
        min_unpooled_factors := none, confidence_level := none } =
      .error "Array data and response data must have same number of runs" :=
  (run_doe_analysis_preconditions (fun _ _ _ _ => .ok 0) _).2.2.1
    (by decide) (by decide) (by decide)

/-- C4: `verify_array` classifies each rendered issue by substring search: if
the rendering contains `"ValueOutOfRange"` the kind is the out-of-range one,
otherwise the balance-violation one; in both cases the rendering is stored
verbatim as the description, and the kind is always one of these two. -/
theorem verify_array_classification (res : VerifyResultModel) (claimed i : Nat)
    (h : i < res.issues.length) :
    ((verify_array res claimed).issues.getD i ⟨"", "", none⟩).description =
      res.issues.getD i "" ∧
    (containsSub "ValueOutOfRange".toList (res.issues.getD i "").toList = true →
      ((verify_array res claimed).issues.getD i ⟨"", "", none⟩).issue_type =
        "Value Out of Range") ∧
    (containsSub "ValueOutOfRange".toList (res.issues.getD i "").toList = false →
      ((verify_array res claimed).issues.getD i ⟨"", "", none⟩).issue_type =
        "Balance Violation") ∧
    (((verify_array res claimed).issues.getD i ⟨"", "", none⟩).issue_type =
        "Value Out of Range" ∨
      ((verify_array res claimed).issues.getD i ⟨"", "", none⟩).issue_type =
        "Balance Violation") := by
  have hmap : (verify_array res claimed).issues.getD i ⟨"", "", none⟩ =
      classify_issue (res.issues.getD i "") := by
    simp only [verify_array]
    rw [List.getD_eq_getElem?_getD, List.getElem?_map, List.getElem?_eq_getElem h,
      List.getD_eq_getElem?_getD, List.getElem?_eq_getElem h]
    rfl
  rw [hmap]
  by_cases hc : containsSub "ValueOutOfRange".toList (res.issues.getD i "").toList
  · rw [classify_issue_pos hc]
    refine ⟨rfl, fun _ => rfl, fun hf => ?_, Or.inl rfl⟩
    rw [hc] at hf
    exact absurd hf (by decide)
  · have hc' : containsSub "ValueOutOfRange".toList (res.issues.getD i "").toList = false := by
      simpa using hc
    rw [classify_issue_neg hc']
    refine ⟨rfl, fun hf => ?_, fun _ => rfl, Or.inr rfl⟩
    rw [hc'] at hf
    exact absurd hf (by decide)

/-- C4 witness: a rendering containing `ValueOutOfRange` is classified as out
of range, another is classified as a balance violation, and both keep their
rendering as description. -/
theorem verify_array_classification_witness :
    (((verify_array ⟨false, 1, ["ValueOutOfRange { row: 0, col: 1 }",
        "BalanceViolation { columns: [0, 1] }"]⟩ 2).issues.getD 0
        ⟨"", "", none⟩).issue_type = "Value Out of Range") ∧
    (((verify_array ⟨false, 1, ["ValueOutOfRange { row: 0, col: 1 }",
        "BalanceViolation { columns: [0, 1] }"]⟩ 2).issues.getD 1
        ⟨"", "", none⟩).issue_type = "Balance Violation") ∧
    (((verify_array ⟨false, 1, ["ValueOutOfRange { row: 0, col: 1 }",
        "BalanceViolation { columns: [0, 1] }"]⟩ 2).issues.getD 1
        ⟨"", "", none⟩).description = "BalanceViolation { columns: [0, 1] }") :=
  ⟨(verify_array_classification ⟨false, 1, _⟩ 2 0 (by decide)).2.1 (by decide),
   (verify_array_classification ⟨false, 1, _⟩ 2 1 (by decide)).2.2.1 (by decide),
   (verify_array_classification ⟨false, 1, _⟩ 2 1 (by decide)).1⟩

/-- C5: `detect_algorithm` evaluates its fingerprint rules in priority order;
every 2-level array whose run count is a power of two is classified
"Hadamard-Sylvester" (regardless of the prime oracle or the factor count), and
every 3-level array with 9 runs and at most 4 factors is classified "Bose". -/
theorem detect_algorithm_rules (isPrime : Nat → Bool) (factors : Nat) :
    (∀ k, detect_algorithm isPrime (2 ^ k) factors 2 = "Hadamard-Sylvester") ∧
    (factors ≤ 4 → detect_algorithm isPrime 9 factors 3 = "Bose") := by
  constructor
  · intro k
    unfold detect_algorithm
    rw [if_pos ⟨rfl, isPowerOfTwo_two_pow k⟩]
  · intro h
    unfold detect_algorithm
    norm_num [h]

/-- C5 witness: the 8-run 2-level case and the 9-run, 3-factor, 3-level case. -/
theorem detect_algorithm_rules_witness :
    detect_algorithm (fun _ => false) (2 ^ 3) 3 2 = "Hadamard-Sylvester" ∧
    detect_algorithm (fun _ => false) 9 3 3 = "Bose" :=
  ⟨(detect_algorithm_rules (fun _ => false) 3).1 3,
   (detect_algorithm_rules (fun _ => false) 3).2 (by decide)⟩

/-- C9: `detect_algorithm` can never answer "Bose-Bush": its rule needs
`levels = 2` and `runs = 2·levels² = 8`, and 8 is a power of two, so the
higher-priority Hadamard-Sylvester rule already matches. -/
theorem detect_algorithm_never_bose_bush (isPrime : Nat → Bool)
    (runs factors levels : Nat) :
    detect_algorithm isPrime runs factors levels ≠ "Bose-Bush" := by
  unfold detect_algorithm
  by_cases h1 : levels = 2 ∧ isPowerOfTwo runs
  · rw [if_pos h1]; decide
  · rw [if_neg h1]
    by_cases h2 : levels = 2 ∧ 1 < runs ∧ isPrime (runs - 1)
    · rw [if_pos h2]; decide
    · rw [if_neg h2]
      by_cases h3 : runs = levels ^ 2 ∧ factors ≤ levels + 1
      · rw [if_pos h3]; decide
      · rw [if_neg h3]
        by_cases h4 : runs = 2 * levels ^ 2 ∧ factors ≤ 2 * levels + 1
        · rw [if_pos h4]
          by_cases h5 : levels = 2
          · exfalso
            apply h1
            subst h5
            exact ⟨rfl, by rw [h4.1]; decide⟩
          · rw [if_neg h5]; decide
        · rw [if_neg h4]; decide

/-- C6: `data_to_oa` fails on a zero-row matrix, on a matrix whose first row
has zero columns, and on any matrix with a row whose length differs from the
first row's, with three pairwise-distinct error messages; on every other
(non-empty, rectangular, first row non-empty) input the shape checks pass and
a validated array is produced. -/
theorem dataToOA_shape (data : List (List Nat)) :
    (data = [] → dataToOA data = .error "Array data cannot be empty") ∧
    (data ≠ [] → (data.headD []).length = 0 →
      dataToOA data = .error "Array must have at least one factor") ∧
    (data ≠ [] → (data.headD []).length ≠ 0 →
      ¬(∀ row ∈ data, row.length = (data.headD []).length) →
      dataToOA data = .error "All rows must have the same number of columns") ∧
    (data ≠ [] → (data.headD []).length ≠ 0 →
      (∀ row ∈ data, row.length = (data.headD []).length) →
      ∃ oa, dataToOA data = .ok oa) ∧
    (["Array data cannot be empty", "Array must have at least one factor",
      "All rows must have the same number of columns"].Pairwise (· ≠ ·)) := by
  refine ⟨?_, ?_, ?_, ?_, by decide⟩
  · intros; simp_all [dataToOA, List.isEmpty_iff]
  · intros; simp_all [dataToOA, List.isEmpty_iff]
  · intros; simp_all [dataToOA, List.isEmpty_iff]
  · intro h1 h2 h3
    simp_all [dataToOA, List.isEmpty_iff]
    have hnex : ¬∃ x ∈ data, ¬x.length = (data.head?.getD []).length := by
      rintro ⟨x, hx, hlen⟩
      exact hlen (h3 x hx)
    rw [if_neg hnex]
    exact ⟨_, rfl⟩

/-- C6 witness: the three rejections at concrete malformed inputs and the
acceptance of a concrete rectangular matrix. -/
theorem dataToOA_shape_witness :
    dataToOA [] = .error "Array data cannot be empty" ∧
    dataToOA [[]] = .error "Array must have at least one factor" ∧
    dataToOA [[0], [1, 2]] = .error "All rows must have the same number of columns" ∧
    ∃ oa, dataToOA [[0, 1], [2, 0]] = .ok oa :=
  ⟨(dataToOA_shape []).1 rfl,
   (dataToOA_shape [[]]).2.1 (by decide) (by decide),
   (dataToOA_shape [[0], [1, 2]]).2.2.1 (by decide) (by decide) (by decide),
   (dataToOA_shape [[0, 1], [2, 0]]).2.2.2.1 (by decide) (by decide) (by decide)⟩

/-- C8: `validate_build_params` is valid exactly when its accumulated error
list is empty, and the warnings — in particular the non-prime-power warning,
the only place the prime-power oracle is consulted — never influence validity
or the error list (stated as independence from the oracle). -/
theorem validate_build_params_valid_iff_errors (ipp ipp2 : Nat → Bool)
    (cat : Nat → Nat → List (String × Nat × Nat)) (req : BuildRequest) :
    ((validate_build_params ipp cat req).valid =
      (validate_build_params ipp cat req).errors.isEmpty) ∧
    ((validate_build_params ipp cat req).valid =
      (validate_build_params ipp2 cat req).valid) ∧
    ((validate_build_params ipp cat req).errors =
      (validate_build_params ipp2 cat req).errors) := by
  rcases req with ⟨lv, f, st, mr⟩
  cases lv with
  | symmetric s => exact ⟨rfl, rfl, rfl⟩
  | mixed lvls =>
      cases lvls with
      | nil => exact ⟨rfl, rfl, rfl⟩
      | cons a as => exact ⟨rfl, rfl, rfl⟩

/-- The ragged-row scan of `validate_import` finds nothing in a matrix of
zero-length rows checked against an expected width of zero. -/
theorem findRagged_replicate_nil (m : Nat) :
    ∀ i, findRagged 0 i (List.replicate m ([] : List Nat)) = none := by
  induction m with
  | zero => intro i; rfl
  | succ m ih =>
      intro i
      rw [List.replicate_succ]
      simpa [findRagged] using ih (i + 1)

/-- C10: `validate_import` accepts a non-empty matrix all of whose rows have
zero columns, returning a successful validation with `factors = 0` and an
empty levels list, whereas `data_to_oa` rejects the same input with its
zero-factor error. -/
theorem validate_import_accepts_zero_columns (n : Nat) (h : 0 < n) :
    ((validate_import (List.replicate n ([] : List Nat))).map
        (fun r => (r.factors, r.levels)) = .ok (0, [])) ∧
    dataToOA (List.replicate n []) = .error "Array must have at least one factor" := by
  obtain ⟨m, rfl⟩ : ∃ m, n = m + 1 := ⟨n - 1, by omega⟩
  constructor
  · rw [List.replicate_succ]
    simp [validate_import, findRagged, findRagged_replicate_nil m 1, inferLevels,
      Except.map]
  · rw [List.replicate_succ]
    simp [dataToOA]

/-- C10 witness: the two-run zero-column matrix. -/
theorem validate_import_accepts_zero_columns_witness :
    ((validate_import (List.replicate 2 ([] : List Nat))).map
        (fun r => (r.factors, r.levels)) = .ok (0, [])) ∧
    dataToOA (List.replicate 2 []) = .error "Array must have at least one factor" :=
  validate_import_accepts_zero_columns 2 (by decide)

/-- C1 (amended): the top-level `expected_count` of the balance report is
`runs / levels[0]`, but each factor's balance flag is checked against that
factor's own level count: factor `c` is reported balanced iff every observed
occurrence count in column `c` equals `runs / levels[c]`. -/
theorem balance_report_per_factor (data : List (List Nat)) (r : BalanceData)
    (h : get_balance_report data = .ok r) :
    r.expected_count = data.length / (listMaxD (column data 0) 0 + 1) ∧
    r.factor_balance.length = (data.headD []).length ∧
    (∀ c, c < r.factor_balance.length →
      (r.factor_balance.getD c false = true ↔
        ∀ v ∈ column data c,
          (column data c).count v =
            data.length / (listMaxD (column data c) 0 + 1))) := by
  unfold get_balance_report at h
  cases hoa : dataToOA data with
  | error e => rw [hoa] at h; cases h
  | ok oa =>
      rw [hoa] at h
      injection h with h2
      subst h2
      obtain ⟨hruns, hfac, hlev, hdata, -, hfz⟩ := dataToOA_ok_elim hoa
      have hfpos : 0 < oa.factors := by
        rw [hfac]; exact Nat.pos_of_ne_zero hfz
      have hlen : ((List.range oa.factors).map (balanceForCol oa)).length = oa.factors := by
        rw [List.length_map, List.length_range]
      have hfpos2 : 0 < (data.headD []).length := Nat.pos_of_ne_zero hfz
      refine ⟨?_, ?_, ?_⟩
      · show (if oa.factors > 0 then oa.runs / oa.levels.getD 0 0 else 0) = _
        rw [if_pos hfpos, hruns, hlev, inferLevels, getD_range_map _ _ _ _ hfpos2]
      · show ((List.range oa.factors).map (balanceForCol oa)).length = _
        rw [hlen, hfac]
      · intro c hc
        rw [show (⟨(List.range oa.factors).map (balanceForCol oa),
              (List.range oa.factors).map (levelCountsFor oa),
              if oa.factors > 0 then oa.runs / oa.levels.getD 0 0 else 0⟩ :
                BalanceData).factor_balance =
            (List.range oa.factors).map (balanceForCol oa) from rfl] at hc ⊢
        rw [hlen] at hc
        have hc2 : c < (data.headD []).length := hfac ▸ hc
        rw [getD_range_map _ _ _ _ hc]
        unfold balanceForCol
        rw [hdata, hruns, hlev, inferLevels, getD_range_map _ _ _ _ hc2]
        simp [List.all_eq_true, List.mem_dedup]

/-- C1 witness: a 4-entry 2-level array where the amended characterisation is
instantiated and evaluated. -/
theorem balance_report_per_factor_witness :
    ∃ r, get_balance_report [[0, 1], [1, 0]] = .ok r ∧
      r.expected_count =
        ([[0, 1], [1, 0]] : List (List Nat)).length /
          (listMaxD (column [[0, 1], [1, 0]] 0) 0 + 1) := by
  have h : get_balance_report [[0, 1], [1, 0]] =
      .ok { factor_balance := [true, true],
            level_counts := [[(0, 1), (1, 1)], [(1, 1), (0, 1)]],
            expected_count := 1 } := by rfl
  exact ⟨_, h, (balance_report_per_factor _ _ h).1⟩

/-- C1 counterexample: on the mixed-level array
`[[0,0],[0,1],[1,0],[1,1],[2,0],[2,1]]` (6 runs, `levels = [3,2]`), factor 1 is
reported balanced although its observed counts (3 each) differ from
`runs / levels[0] = 2`, refuting the claim that the factor-0 expectation is
reused for every factor's check. -/
theorem balance_report_claim_counterexample :
    ∃ r, get_balance_report [[0, 0], [0, 1], [1, 0], [1, 1], [2, 0], [2, 1]] = .ok r ∧
      r.expected_count = 2 ∧
      r.factor_balance.getD 1 false = true ∧
      ¬(∀ v ∈ column [[0, 0], [0, 1], [1, 0], [1, 1], [2, 0], [2, 1]] 1,
          (column [[0, 0], [0, 1], [1, 0], [1, 1], [2, 0], [2, 1]] 1).count v =
            r.expected_count) := by
  refine ⟨_, rfl, ?_, ?_, ?_⟩ <;> decide

/-- Sorting a column and removing duplicates counts `max + 1` values exactly
when the column contains every value from `0` to its maximum. -/
theorem doeLevelCount_dense (col : List Nat)
    (hdense : ∀ v, v ≤ listMaxD col 0 → v ∈ col) :
    doeLevelCount col = listMaxD col 0 + 1 := by
  rw [doeLevelCount_eq_dedup_length, ← List.card_toFinset]
  have hset : col.toFinset = Finset.range (listMaxD col 0 + 1) := by
    ext v
    simp only [List.mem_toFinset, Finset.mem_range, Nat.lt_succ_iff]
    exact ⟨fun hv => mem_le_listMaxD 0 hv, fun hv => hdense v hv⟩
  rw [hset, Finset.card_range]

/-- C2 (amended): the DOE bridge's per-factor level derivation (distinct-value
count of the column) agrees with the ingestion component's inference
(`max + 1`) exactly on densely encoded columns — columns containing every
value from `0` up to their maximum; the counterexample shows they differ in
general. -/
theorem doe_levels_eq_inferred_on_dense (data : List (List Nat)) (c : Nat)
    (hc : c < (data.headD []).length)
    (hdense : ∀ v, v ≤ listMaxD (column data c) 0 → v ∈ column data c) :
    doeLevelCount (column data c) =
      (inferLevels data ((data.headD []).length)).getD c 0 := by
  rw [inferLevels, getD_range_map _ _ _ _ hc]
  exact doeLevelCount_dense _ hdense

/-- C2 witness: a dense two-level column where both derivations give 2. -/
theorem doe_levels_eq_inferred_on_dense_witness :
    doeLevelCount (column [[0], [1]] 0) =
      (inferLevels [[0], [1]] (([[0], [1]] : List (List Nat)).headD []).length).getD 0 0 :=
  doe_levels_eq_inferred_on_dense [[0], [1]] 0 (by decide) (by decide)

/-- C2 counterexample: on the matrix `[[0],[2]]` the DOE bridge derives 2
levels for column 0 while the ingestion component infers 3, so the two
separately-coded derivations are not equivalent. -/
theorem doe_levels_counterexample :
    doeLevelCount (column [[0], [2]] 0) ≠ (inferLevels [[0], [2]] 1).getD 0 0 ∧
    doeLevelCount (column [[0], [2]] 0) = 2 ∧
    (inferLevels [[0], [2]] 1).getD 0 0 = 3 := by
  refine ⟨?_, ?_, by decide⟩
  · rw [doeLevelCount_eq_dedup_length]; decide
  · rw [doeLevelCount_eq_dedup_length]; decide

/-- Reading one entry of the correlation matrix table. -/
theorem corrMatrixEntry (sqrt : ℚ → ℚ) (eps : ℚ) (oa : OAmodel) (i j : Nat)
    (hi : i < oa.factors) (hj : j < oa.factors) :
    (((List.range oa.factors).map (fun i => (List.range oa.factors).map (fun j =>
        if i = j then (1 : ℚ) else calculate_correlation sqrt eps oa i j))).getD i
          []).getD j 0 =
      if i = j then 1 else calculate_correlation sqrt eps oa i j := by
  rw [getD_range_map _ _ _ _ hi, getD_range_map _ _ _ _ hj]

/-- C7: every diagonal entry of the correlation matrix is the literal `1`
(independently of the square-root primitive, i.e. set without computation),
and every off-diagonal entry whose denominator `sqrt(var_i · var_j)` is below
the epsilon threshold is the literal `0` — the division never happens on that
branch, which in `f64` is what rules out `NaN`. -/
theorem correlation_matrix_spec (sqrt : ℚ → ℚ) (eps : ℚ) (data : List (List Nat))
    (cd : CorrelationData) (h : get_correlation_matrix sqrt eps data = .ok cd) :
    (∀ i, i < cd.factors → (cd.matrix.getD i []).getD i 0 = 1) ∧
    (∀ oa, dataToOA data = .ok oa → ∀ i j, i < cd.factors → j < cd.factors →
      i ≠ j → sqrt (colVar oa i * colVar oa j) < eps →
      (cd.matrix.getD i []).getD j 0 = 0) := by
  unfold get_correlation_matrix at h
  cases hoa : dataToOA data with
  | error e => rw [hoa] at h; cases h
  | ok oa =>
      rw [hoa] at h
      injection h with h2
      subst h2
      constructor
      · intro i hi
        have hi' : i < oa.factors := hi
        have h4 := corrMatrixEntry sqrt eps oa i i hi' hi'
        rw [if_pos rfl] at h4
        exact h4
      · intro oa2 hoa2 i j hi hj hij hden
        injection hoa2 with h3
        subst h3
        have hi' : i < oa.factors := hi
        have hj' : j < oa.factors := hj
        have h4 := corrMatrixEntry sqrt eps oa i j hi' hj'
        rw [if_neg hij] at h4
        have h5 : calculate_correlation sqrt eps oa i j = 0 := by
          unfold calculate_correlation
          rw [if_pos hden]
        exact h4.trans h5

/-- C7 witness: on `[[0,0],[0,1]]` (column 0 constant) with the identity as
square root and epsilon 1, the denominator is below epsilon, so the (0,1)
entry is exactly 0 and the (0,0) diagonal entry is exactly 1. -/
theorem correlation_matrix_spec_witness :
    ∃ cd, get_correlation_matrix (fun q => q) 1 [[0, 0], [0, 1]] = .ok cd ∧
      (cd.matrix.getD 0 []).getD 0 0 = 1 ∧
      (cd.matrix.getD 0 []).getD 1 0 = 0 := by
  have hoa : dataToOA [[0, 0], [0, 1]] = .ok ⟨2, 2, [1, 2], [[0, 0], [0, 1]]⟩ := by rfl
  have h : get_correlation_matrix (fun q => q) 1 [[0, 0], [0, 1]] =
      .ok { matrix :=
              (List.range 2).map (fun i =>
                (List.range 2).map (fun j =>
                  if i = j then 1
                  else calculate_correlation (fun q => q) 1
                    ⟨2, 2, [1, 2], [[0, 0], [0, 1]]⟩ i j))
            factors := 2 } := by
    unfold get_correlation_matrix
    rw [hoa]
  have hden : (fun q : ℚ => q)
      (colVar ⟨2, 2, [1, 2], [[0, 0], [0, 1]]⟩ 0 *
        colVar ⟨2, 2, [1, 2], [[0, 0], [0, 1]]⟩ 1) < 1 := by
    norm_num [colVar, colMean, sumOver, OAmodel.get, List.range_succ]
  exact ⟨_, h, (correlation_matrix_spec _ _ _ _ h).1 0 (by decide),
    (correlation_matrix_spec _ _ _ _ h).2 _ hoa 0 1 (by decide) (by decide)
      (by decide) hden⟩

end TaguchiUI
